import Mathlib

/-!
Shallow embedding of `MPMImplicitLinear` (src/include/solvers/mpm_implicit_linear.tcc),
the implicit-linear Newmark MPM solver.  The solver's behaviour relevant to the
specification is its control flow: which collaborator calls `solve()` makes, with
which arguments, in which order, and under which configuration conditions.  We
model an execution of `solve()` as the list of calls (events) it emits, as a
function of the run configuration and of the preprocessor build flags
(`USE_MPI`, `USE_GRAPH_PARTITIONING`, `USE_VTK`, `USE_PARTIO`).

Scalar/vector numerical arguments that `solve()` merely forwards (time increment
`dt_`, Newmark `beta`/`gamma`, the gravity vector, the damping factor) are carried
as rational stand-ins: the solver never inspects them, it only passes them on, so
only their identity matters to the claims.
-/

namespace MpmImplicitLinear

/-- The damping-model name string handed to `compute_particle_kinematics`.
`cundall` denotes the literal string "Cundall" that appears in the source;
`otherName k` denotes any other damping-model name (e.g. one a configuration
might specify). -/
inductive DampingName where
  | cundall : DampingName
  | otherName : Nat → DampingName
deriving DecidableEq, Repr

/-- One observable call made by `solve()` (or by `compute_stress_strain`).
The three constructors `assembleStiffness`, `solveLinearSystem` and
`updateNodalDisplacement` are the operations named by the TODO stub comments in
the source (lines 135-141); they are part of the event vocabulary precisely so
that their absence from every trace is a meaningful statement. -/
inductive Event where
  | initialiseMaterials : Event
  | initialiseMesh : Event
  | initialiseParticleTypes : Event
  | checkpointResume : Bool → Event
  | resumeDomainCellRanks : Event
  | mpiBarrier : Event
  | particleEntitySets : Bool → Event
  | particleVelocityConstraints : Event
  | initialiseParticles : Event
  | computeMass : Event
  | mpiDomainDecompose : Bool → Event
  | initialiseLoads : Event
  | injectParticles : ℚ → Event
  | schemeInitialise : Event
  | computeNodalKinematics : Nat → Event
  | updateNodalKinematicsNewmark : Nat → ℚ → ℚ → Event
  | computeForces : ℚ → Nat → Nat → Bool → Event
  | assembleStiffness : Event
  | solveLinearSystem : Event
  | updateNodalDisplacement : Event
  | computeParticleKinematics : Bool → Nat → DampingName → ℚ → Event
  | postcomputeStressStrain : Nat → Bool → Event
  | locateParticles : Event
  | transferHaloParticles : Event
  | writeHdf5 : Nat → Nat → Event
  | writeVtk : Nat → Nat → Event
  | writePartio : Nat → Nat → Event
  | computeStrain : ℚ → Event
  | updateVolume : Event
  | pressureSmoothingPass : Nat → Event
  | computeStress : Event
deriving DecidableEq, Repr

/-- The run configuration and build flags that `solve()` reads.
`resumeEntry` models the `analysis_["resume"]["resume"]` JSON entry:
`none` when the analysis object has no "resume" key, `some b` when it does and
the nested boolean is `b`.  `checkpointSuccess` is the value
`checkpoint_resume()` returns when called.  `persistedStep` is the step index a
successful `checkpoint_resume()` restores into `step_`.  `dampingType` is the
damping model named by the configuration (a recognised option of the external
run-configuration interface; `MPMImplicitLinear::solve` itself never reads it). -/
structure Config where
  resumeEntry : Option Bool
  checkpointSuccess : Bool
  persistedStep : Nat
  nsteps : Nat
  nloadBalanceSteps : Nat
  outputSteps : Nat
  pressureSmoothing : Bool
  interface : Bool
  velocityUpdate : Bool
  dampingType : DampingName
  dampingFactor : ℚ
  newmarkBeta : ℚ
  newmarkGamma : ℚ
  dt : ℚ
  gravity : ℚ
  setNodeConcentratedForce : Bool
  useMPI : Bool
  useGraphPartitioning : Bool
  useVTK : Bool
  usePartio : Bool
deriving DecidableEq, Repr

/-- `bool resume = false; if (analysis_.find("resume") != analysis_.end())
resume = analysis_["resume"]["resume"].get<bool>();` (source lines 53-55). -/
def resumeRequested (cfg : Config) : Bool :=
  match cfg.resumeEntry with
  | some b => b
  | none => false

/-- The value of the local `resume` variable after the resume attempt
(source lines 70-74): still true only when resume was requested and
`checkpoint_resume()` succeeded. -/
def resumeEffective (cfg : Config) : Bool :=
  resumeRequested cfg && cfg.checkpointSuccess

/-- Modelled from the spec: `checkpoint_resume()` (declared in the base class,
outside this slice) restores the persisted step index into `step_` on success
(the orchestrator "resumes the main loop at the persisted step index"); on a
fresh start `step_` keeps its initial value 0. -/
def startStep (cfg : Config) : Nat :=
  if resumeEffective cfg then cfg.persistedStep else 0

/-- `MPMImplicitLinear::compute_stress_strain(phase)` (source lines 12-29):
a strain pass over all particles with `dt_`, a volume-update pass, the pressure
smoothing pass exactly when `pressure_smoothing_` is set, then a stress pass. -/
def compute_stress_strain (cfg : Config) (phase : Nat) : List Event :=
  [Event.computeStrain cfg.dt, Event.updateVolume]
    ++ (if cfg.pressureSmoothing then [Event.pressureSmoothingPass phase] else [])
    ++ [Event.computeStress]

/-- The calls `solve()` makes before entering the main loop
(source lines 63-101): material and mesh initialisation; on a requested resume,
particle-type initialisation and the `checkpoint_resume()` attempt; then either
the resume-restoration branch (domain cell ranks, an MPI barrier in
graph-partitioned MPI builds, entity sets and velocity constraints) or the
fresh-start branch (particle initialisation, the mass pass, and a domain
decomposition whose `initial_step` ternary reads the local `resume` flag); and
finally the loading conditions. -/
def preLoopTrace (cfg : Config) : List Event :=
  [Event.initialiseMaterials, Event.initialiseMesh]
    ++ (if resumeRequested cfg then
          [Event.initialiseParticleTypes, Event.checkpointResume cfg.checkpointSuccess]
        else [])
    ++ (if resumeEffective cfg then
          [Event.resumeDomainCellRanks]
            ++ (if cfg.useMPI && cfg.useGraphPartitioning then [Event.mpiBarrier] else [])
            ++ [Event.particleEntitySets false, Event.particleVelocityConstraints]
        else
          [Event.initialiseParticles, Event.computeMass,
           Event.mpiDomainDecompose (if resumeEffective cfg then false else true)])
    ++ [Event.initialiseLoads]

/-- The body of one main-loop iteration at step index `s`
(source lines 105-177): in graph-partitioned MPI builds the load balancer first,
at the configured frequency; particle injection at time `s * dt`; the scheme
initialisation, nodal kinematics, Newmark predictor, force computation, Newmark
corrector (the TODO stubs between forces and corrector emit nothing), particle
kinematics with the literal damping name "Cundall", stress/strain
post-computation and particle relocation; in graph-partitioned MPI builds the
halo transfer and a barrier; and at the configured output frequency the HDF5
write plus, in `USE_VTK` / `USE_PARTIO` builds, the VTK and Partio writes. -/
def stepTrace (cfg : Config) (s : Nat) : List Event :=
  (if cfg.useMPI && cfg.useGraphPartitioning && (s % cfg.nloadBalanceSteps == 0) && (s != 0)
      then [Event.mpiDomainDecompose false] else [])
    ++ [Event.injectParticles (s * cfg.dt),
        Event.schemeInitialise,
        Event.computeNodalKinematics 0,
        Event.updateNodalKinematicsNewmark 0 cfg.newmarkBeta cfg.newmarkGamma,
        Event.computeForces cfg.gravity 0 s cfg.setNodeConcentratedForce,
        Event.updateNodalKinematicsNewmark 0 cfg.newmarkBeta cfg.newmarkGamma,
        Event.computeParticleKinematics cfg.velocityUpdate 0 DampingName.cundall cfg.dampingFactor,
        Event.postcomputeStressStrain 0 cfg.pressureSmoothing,
        Event.locateParticles]
    ++ (if cfg.useMPI && cfg.useGraphPartitioning
          then [Event.transferHaloParticles, Event.mpiBarrier] else [])
    ++ (if s % cfg.outputSteps == 0 then
          [Event.writeHdf5 s cfg.nsteps]
            ++ (if cfg.useVTK then [Event.writeVtk s cfg.nsteps] else [])
            ++ (if cfg.usePartio then [Event.writePartio s cfg.nsteps] else [])
        else [])

/-- The step indices the main loop `for (; step_ < nsteps_; ++step_)` executes:
`startStep, startStep+1, …, nsteps-1` (empty when `startStep ≥ nsteps`). -/
def executedSteps (cfg : Config) : List Nat :=
  List.range' (startStep cfg) (cfg.nsteps - startStep cfg)

/-- The main loop's full trace: the step bodies in step order. -/
def loopTrace (cfg : Config) : List Event :=
  (executedSteps cfg).flatMap (stepTrace cfg)

/-- The full trace of `solve()`. -/
def solveTrace (cfg : Config) : List Event :=
  preLoopTrace cfg ++ loopTrace cfg

/-- `solve()` as a whole: its trace and its returned status.  The source sets
`bool status = true;` at entry (line 34), never assigns it again, and returns it
(line 185). -/
def solve (cfg : Config) : List Event × Bool :=
  let status := true
  (solveTrace cfg, status)

/-! Concrete configurations used as witnesses and counterexamples. -/

/-- A minimal single-rank fresh-start configuration. -/
def cfgFresh : Config :=
  { resumeEntry := none, checkpointSuccess := false, persistedStep := 0,
    nsteps := 2, nloadBalanceSteps := 1, outputSteps := 1,
    pressureSmoothing := false, interface := false, velocityUpdate := false,
    dampingType := DampingName.cundall, dampingFactor := 0,
    newmarkBeta := 0, newmarkGamma := 0, dt := 0, gravity := 0,
    setNodeConcentratedForce := false,
    useMPI := false, useGraphPartitioning := false, useVTK := false, usePartio := false }

/-- A graph-partitioned MPI build whose load balancer fires every step. -/
def cfgMpiLB : Config :=
  { cfgFresh with resumeEntry := some false, useMPI := true, useGraphPartitioning := true }

/-- A configuration that (per the external configuration interface) names a
damping model other than Cundall damping. -/
def cfgOtherDamping : Config :=
  { cfgFresh with dampingType := DampingName.otherName 0, dampingFactor := 5 / 100 }

/-- A configuration requesting a resume whose checkpoint load fails. -/
def cfgResumeFail : Config :=
  { cfgFresh with resumeEntry := some true, checkpointSuccess := false, persistedStep := 7 }

/-- A configuration requesting a resume whose checkpoint load succeeds at
persisted step 3 of 5. -/
def cfgResumeOk : Config :=
  { cfgFresh with resumeEntry := some true, checkpointSuccess := true, persistedStep := 3,
                  nsteps := 5 }

/-! ## Claim theorems -/

/-- C9: every normally-terminating execution of `solve()` returns `true`: the
status flag is initialised to `true`, never reassigned, and returned unchanged,
whatever the configuration (resume, decomposition and the main loop included). -/
theorem solve_status_always_true (cfg : Config) : (solve cfg).2 = true := rfl

/-- C10: when the analysis configuration has no "resume" entry at all, `solve()`
treats resume as `false` — its whole behaviour (trace and status) is the one of
an explicit `resume = false` configuration, a fresh start rather than a fatal
configuration error. -/
theorem absent_resume_entry_fresh_start (cfg : Config) (h : cfg.resumeEntry = none) :
    resumeRequested cfg = false ∧
    solve cfg = solve { cfg with resumeEntry := some false } := by
  constructor
  · simp [resumeRequested, h]
  · simp [solve, solveTrace, preLoopTrace, loopTrace, executedSteps, startStep,
      resumeEffective, resumeRequested, h]
    rfl

/-- Witness for C10 at the concrete configuration `cfgFresh`. -/
theorem absent_resume_entry_fresh_start_witness :
    resumeRequested cfgFresh = false ∧
    solve cfgFresh = solve { cfgFresh with resumeEntry := some false } :=
  absent_resume_entry_fresh_start cfgFresh rfl

/-- C6: `compute_stress_strain(phase)` runs, in order, the strain pass with the
time increment `dt`, the volume-update pass, then — exactly when the
`pressure_smoothing` flag is set — the pressure-smoothing pass, then the stress
pass; with the flag unset the smoothing pass is skipped and the other passes are
identical. -/
theorem compute_stress_strain_passes (cfg : Config) (phase : Nat) :
    (cfg.pressureSmoothing = true →
      compute_stress_strain cfg phase =
        [Event.computeStrain cfg.dt, Event.updateVolume,
         Event.pressureSmoothingPass phase, Event.computeStress]) ∧
    (cfg.pressureSmoothing = false →
      compute_stress_strain cfg phase =
        [Event.computeStrain cfg.dt, Event.updateVolume, Event.computeStress]) := by
  constructor <;> intro h <;> simp [compute_stress_strain, h]

/-- Witness for C6: both pressure-smoothing settings evaluated on concrete
configurations. -/
theorem compute_stress_strain_passes_witness :
    compute_stress_strain { cfgFresh with pressureSmoothing := true } 0 =
      [Event.computeStrain 0, Event.updateVolume,
       Event.pressureSmoothingPass 0, Event.computeStress] ∧
    compute_stress_strain cfgFresh 0 =
      [Event.computeStrain 0, Event.updateVolume, Event.computeStress] :=
  ⟨(compute_stress_strain_passes { cfgFresh with pressureSmoothing := true } 0).1 rfl,
   (compute_stress_strain_passes cfgFresh 0).2 rfl⟩

/-- The fresh-start initialisation tail of the pre-loop phase: particle
initialisation, the particle-mass pass, the initial domain decomposition, then
the loading conditions. -/
def freshStartTail : List Event :=
  [Event.initialiseParticles, Event.computeMass, Event.mpiDomainDecompose true,
   Event.initialiseLoads]

/-- C2: when resume is requested but `checkpoint_resume()` fails, `solve()`
falls back to the fresh-start path: after the resume attempt it initialises
particles, computes masses and performs the initial domain decomposition exactly
as the `resume = false` configuration does, applies no resume-only restoration
(`resume_domain_cell_ranks` never runs), and the main loop starts at step 0. -/
theorem resume_failure_falls_back (cfg : Config)
    (hreq : resumeRequested cfg = true) (hfail : cfg.checkpointSuccess = false) :
    preLoopTrace cfg =
      [Event.initialiseMaterials, Event.initialiseMesh, Event.initialiseParticleTypes,
       Event.checkpointResume false] ++ freshStartTail ∧
    preLoopTrace { cfg with resumeEntry := some false } =
      [Event.initialiseMaterials, Event.initialiseMesh] ++ freshStartTail ∧
    startStep cfg = 0 ∧
    executedSteps cfg = List.range cfg.nsteps ∧
    Event.resumeDomainCellRanks ∉ preLoopTrace cfg := by
  have heff : resumeEffective cfg = false := by
    simp [resumeEffective, hfail]
  have htr : preLoopTrace cfg =
      [Event.initialiseMaterials, Event.initialiseMesh, Event.initialiseParticleTypes,
       Event.checkpointResume false] ++ freshStartTail := by
    simp [preLoopTrace, freshStartTail, hreq, heff, hfail]
  refine ⟨htr, ?_, ?_, ?_, ?_⟩
  · simp [preLoopTrace, freshStartTail, resumeRequested, resumeEffective]
  · simp [startStep, heff]
  · simp [executedSteps, startStep, heff, List.range_eq_range']
  · rw [htr]
    decide

/-- Witness for C2 at the concrete configuration `cfgResumeFail`. -/
theorem resume_failure_falls_back_witness :
    preLoopTrace cfgResumeFail =
      [Event.initialiseMaterials, Event.initialiseMesh, Event.initialiseParticleTypes,
       Event.checkpointResume false] ++ freshStartTail ∧
    preLoopTrace { cfgResumeFail with resumeEntry := some false } =
      [Event.initialiseMaterials, Event.initialiseMesh] ++ freshStartTail ∧
    startStep cfgResumeFail = 0 ∧
    executedSteps cfgResumeFail = List.range cfgResumeFail.nsteps ∧
    Event.resumeDomainCellRanks ∉ preLoopTrace cfgResumeFail :=
  resume_failure_falls_back cfgResumeFail rfl rfl

/-- C4: when resume is requested and `checkpoint_resume()` succeeds, the
pre-loop phase restores domain ownership through `resume_domain_cell_ranks`
(with a barrier in graph-partitioned MPI builds) and reconstructs particle
entity sets and velocity constraints from configuration; it performs no particle
re-initialisation, no mass pass, and no domain decomposition of any kind; and
the main loop executes exactly the steps `S, S+1, …, nsteps-1` from the
persisted step index `S`. -/
theorem resume_success_restoration (cfg : Config)
    (hreq : resumeRequested cfg = true) (hok : cfg.checkpointSuccess = true) :
    preLoopTrace cfg =
      [Event.initialiseMaterials, Event.initialiseMesh, Event.initialiseParticleTypes,
       Event.checkpointResume true, Event.resumeDomainCellRanks]
        ++ (if cfg.useMPI && cfg.useGraphPartitioning then [Event.mpiBarrier] else [])
        ++ [Event.particleEntitySets false, Event.particleVelocityConstraints,
            Event.initialiseLoads] ∧
    Event.initialiseParticles ∉ preLoopTrace cfg ∧
    Event.computeMass ∉ preLoopTrace cfg ∧
    (∀ b : Bool, Event.mpiDomainDecompose b ∉ preLoopTrace cfg) ∧
    executedSteps cfg = List.range' cfg.persistedStep (cfg.nsteps - cfg.persistedStep) := by
  have heff : resumeEffective cfg = true := by
    simp [resumeEffective, hreq, hok]
  have htr : preLoopTrace cfg =
      [Event.initialiseMaterials, Event.initialiseMesh, Event.initialiseParticleTypes,
       Event.checkpointResume true, Event.resumeDomainCellRanks]
        ++ (if cfg.useMPI && cfg.useGraphPartitioning then [Event.mpiBarrier] else [])
        ++ [Event.particleEntitySets false, Event.particleVelocityConstraints,
            Event.initialiseLoads] := by
    simp [preLoopTrace, hreq, heff, hok]
  refine ⟨htr, ?_, ?_, ?_, ?_⟩
  · rw [htr]
    cases cfg.useMPI && cfg.useGraphPartitioning <;> decide
  · rw [htr]
    cases cfg.useMPI && cfg.useGraphPartitioning <;> decide
  · intro b
    rw [htr]
    cases cfg.useMPI && cfg.useGraphPartitioning <;> cases b <;> decide
  · simp [executedSteps, startStep, heff]

/-- Witness for C4 at the concrete configuration `cfgResumeOk` (persisted step 3
of 5 total steps). -/
theorem resume_success_restoration_witness :
    preLoopTrace cfgResumeOk =
      [Event.initialiseMaterials, Event.initialiseMesh, Event.initialiseParticleTypes,
       Event.checkpointResume true, Event.resumeDomainCellRanks]
        ++ (if cfgResumeOk.useMPI && cfgResumeOk.useGraphPartitioning
              then [Event.mpiBarrier] else [])
        ++ [Event.particleEntitySets false, Event.particleVelocityConstraints,
            Event.initialiseLoads] ∧
    Event.initialiseParticles ∉ preLoopTrace cfgResumeOk ∧
    Event.computeMass ∉ preLoopTrace cfgResumeOk ∧
    (∀ b : Bool, Event.mpiDomainDecompose b ∉ preLoopTrace cfgResumeOk) ∧
    executedSteps cfgResumeOk =
      List.range' cfgResumeOk.persistedStep (cfgResumeOk.nsteps - cfgResumeOk.persistedStep) :=
  resume_success_restoration cfgResumeOk rfl rfl

/-- A loop iteration never emits the from-scratch (initial = true) domain
decomposition: the only decomposition a step body can contain is the
incremental load-balancing call. -/
theorem decompose_true_not_in_step (cfg : Config) (s : Nat) :
    Event.mpiDomainDecompose true ∉ stepTrace cfg s := by
  unfold stepTrace
  cases cfg.useMPI && cfg.useGraphPartitioning && (s % cfg.nloadBalanceSteps == 0) && (s != 0) <;>
    cases cfg.useMPI && cfg.useGraphPartitioning <;>
      cases s % cfg.outputSteps == 0 <;>
        cases cfg.useVTK <;>
          cases cfg.usePartio <;>
            simp

/-- The whole main loop never emits the from-scratch domain decomposition. -/
theorem decompose_true_not_in_loop (cfg : Config) :
    Event.mpiDomainDecompose true ∉ loopTrace cfg := by
  unfold loopTrace
  intro h
  obtain ⟨s, _, hmem⟩ := List.mem_flatMap.mp h
  exact decompose_true_not_in_step cfg s hmem

/-- C5: in graph-partitioned MPI builds (the builds that have a load balancer),
the load balancer runs in the body of step `s` exactly when
`s % nload_balance_steps = 0` and `s ≠ 0`, always as an incremental
(`initial = false`) decomposition; the from-scratch (`initial = true`)
decomposition never occurs inside any step body, occurs at most once in the
whole run, and never occurs at all when a resume is in effect. -/
theorem load_balance_schedule (cfg : Config)
    (hmpi : cfg.useMPI = true) (hgp : cfg.useGraphPartitioning = true) :
    (∀ s : Nat, Event.mpiDomainDecompose false ∈ stepTrace cfg s ↔
        (s % cfg.nloadBalanceSteps = 0 ∧ s ≠ 0)) ∧
    (∀ s : Nat, Event.mpiDomainDecompose true ∉ stepTrace cfg s) ∧
    (solveTrace cfg).count (Event.mpiDomainDecompose true) ≤ 1 ∧
    (resumeEffective cfg = true → Event.mpiDomainDecompose true ∉ solveTrace cfg) := by
  refine ⟨?_, fun s => decompose_true_not_in_step cfg s, ?_, ?_⟩
  · intro s
    by_cases h1 : s % cfg.nloadBalanceSteps = 0 <;> by_cases h2 : s = 0 <;>
      cases h3 : s % cfg.outputSteps == 0 <;> cases h4 : cfg.useVTK <;>
        cases h5 : cfg.usePartio <;>
          simp [stepTrace, hmpi, hgp, h1, h2, h3, h4, h5]
  · have hloop : (loopTrace cfg).count (Event.mpiDomainDecompose true) = 0 :=
      List.count_eq_zero.mpr (decompose_true_not_in_loop cfg)
    have hpre : (preLoopTrace cfg).count (Event.mpiDomainDecompose true) ≤ 1 := by
      cases hr : resumeRequested cfg <;> cases hcs : cfg.checkpointSuccess <;>
        cases hb : cfg.useMPI && cfg.useGraphPartitioning <;>
          simp [preLoopTrace, resumeEffective, hr, hcs, hb]
    calc (solveTrace cfg).count (Event.mpiDomainDecompose true)
        = (preLoopTrace cfg).count (Event.mpiDomainDecompose true)
            + (loopTrace cfg).count (Event.mpiDomainDecompose true) :=
          List.count_append ..
      _ ≤ 1 := by omega
  · intro he h
    rcases List.mem_append.mp h with hp | hl
    · have hr : resumeRequested cfg = true := by
        have := he
        unfold resumeEffective at this
        exact (Bool.and_eq_true_iff.mp this).1
      revert hp
      cases hb : cfg.useMPI && cfg.useGraphPartitioning <;>
        simp [preLoopTrace, hr, he, hb]
    · exact decompose_true_not_in_loop cfg hl

/-- Witness for C5 at the concrete graph-partitioned MPI configuration
`cfgMpiLB`. -/
theorem load_balance_schedule_witness :
    (∀ s : Nat, Event.mpiDomainDecompose false ∈ stepTrace cfgMpiLB s ↔
        (s % cfgMpiLB.nloadBalanceSteps = 0 ∧ s ≠ 0)) ∧
    (∀ s : Nat, Event.mpiDomainDecompose true ∉ stepTrace cfgMpiLB s) ∧
    (solveTrace cfgMpiLB).count (Event.mpiDomainDecompose true) ≤ 1 ∧
    (resumeEffective cfgMpiLB = true →
      Event.mpiDomainDecompose true ∉ solveTrace cfgMpiLB) :=
  load_balance_schedule cfgMpiLB rfl rfl

/-- Whether an event is a call into the integration scheme or one of the
stubbed implicit-system operations (the section 4.1 sequence of the spec). -/
def isSchemeCall : Event → Bool
  | Event.schemeInitialise => true
  | Event.computeNodalKinematics _ => true
  | Event.updateNodalKinematicsNewmark _ _ _ => true
  | Event.computeForces _ _ _ _ => true
  | Event.assembleStiffness => true
  | Event.solveLinearSystem => true
  | Event.updateNodalDisplacement => true
  | Event.computeParticleKinematics _ _ _ _ => true
  | Event.postcomputeStressStrain _ _ => true
  | Event.locateParticles => true
  | _ => false

/-- The scheme-call sequence of one step of a predictor-only scheme, written
from the spec's words: initialise, nodal kinematics, the Newmark predictor,
forces, then — with the linear-system assembly/solve/displacement-update
unimplemented — the corrector recomputing nodal kinematics directly from the
unmodified predictor trial state, particle kinematics, stress/strain, and
particle relocation. -/
def predictorOnlySchemeSeq (cfg : Config) (s : Nat) : List Event :=
  [Event.schemeInitialise,
   Event.computeNodalKinematics 0,
   Event.updateNodalKinematicsNewmark 0 cfg.newmarkBeta cfg.newmarkGamma,
   Event.computeForces cfg.gravity 0 s cfg.setNodeConcentratedForce,
   Event.updateNodalKinematicsNewmark 0 cfg.newmarkBeta cfg.newmarkGamma,
   Event.computeParticleKinematics cfg.velocityUpdate 0 DampingName.cundall cfg.dampingFactor,
   Event.postcomputeStressStrain 0 cfg.pressureSmoothing,
   Event.locateParticles]

/-- No step body contains any of the three stubbed implicit-system
operations. -/
theorem stubs_not_in_step (cfg : Config) (s : Nat) :
    Event.assembleStiffness ∉ stepTrace cfg s ∧
    Event.solveLinearSystem ∉ stepTrace cfg s ∧
    Event.updateNodalDisplacement ∉ stepTrace cfg s := by
  unfold stepTrace
  cases cfg.useMPI && cfg.useGraphPartitioning && (s % cfg.nloadBalanceSteps == 0) && (s != 0) <;>
    cases cfg.useMPI && cfg.useGraphPartitioning <;>
      cases s % cfg.outputSteps == 0 <;>
        cases cfg.useVTK <;>
          cases cfg.usePartio <;>
            refine ⟨?_, ?_, ?_⟩ <;> simp

/-- The pre-loop phase contains none of the three stubbed implicit-system
operations. -/
theorem stubs_not_in_preLoop (cfg : Config) :
    Event.assembleStiffness ∉ preLoopTrace cfg ∧
    Event.solveLinearSystem ∉ preLoopTrace cfg ∧
    Event.updateNodalDisplacement ∉ preLoopTrace cfg := by
  unfold preLoopTrace
  cases resumeRequested cfg <;>
    cases resumeEffective cfg <;>
      cases cfg.useMPI && cfg.useGraphPartitioning <;>
        refine ⟨?_, ?_, ?_⟩ <;> simp

/-- C3: in every loop iteration nothing happens between `compute_forces` and
the corrector `update_nodal_kinematics_newmark` (the two calls are adjacent in
the step body), no stiffness assembly, linear solve, or nodal-displacement
update occurs anywhere in the run, and the scheme-call sequence of every step
is exactly the predictor-only sequence: the corrector recomputes nodal
kinematics from the unmodified predictor trial state. -/
theorem implicit_path_predictor_only (cfg : Config) (s : Nat) :
    (stepTrace cfg s).filter isSchemeCall = predictorOnlySchemeSeq cfg s ∧
    Event.assembleStiffness ∉ solveTrace cfg ∧
    Event.solveLinearSystem ∉ solveTrace cfg ∧
    Event.updateNodalDisplacement ∉ solveTrace cfg ∧
    ∃ pre post, stepTrace cfg s =
      pre ++ [Event.computeForces cfg.gravity 0 s cfg.setNodeConcentratedForce,
              Event.updateNodalKinematicsNewmark 0 cfg.newmarkBeta cfg.newmarkGamma] ++ post := by
  have hsolve : ∀ e : Event, (e = Event.assembleStiffness ∨ e = Event.solveLinearSystem ∨
      e = Event.updateNodalDisplacement) → e ∉ solveTrace cfg := by
    intro e he h
    rcases List.mem_append.mp h with hp | hl
    · rcases he with rfl | rfl | rfl
      · exact (stubs_not_in_preLoop cfg).1 hp
      · exact (stubs_not_in_preLoop cfg).2.1 hp
      · exact (stubs_not_in_preLoop cfg).2.2 hp
    · obtain ⟨t, _, hmem⟩ := List.mem_flatMap.mp hl
      rcases he with rfl | rfl | rfl
      · exact (stubs_not_in_step cfg t).1 hmem
      · exact (stubs_not_in_step cfg t).2.1 hmem
      · exact (stubs_not_in_step cfg t).2.2 hmem
  refine ⟨?_, hsolve _ (Or.inl rfl), hsolve _ (Or.inr (Or.inl rfl)),
    hsolve _ (Or.inr (Or.inr rfl)), ?_⟩
  · unfold stepTrace predictorOnlySchemeSeq
    cases cfg.useMPI && cfg.useGraphPartitioning && (s % cfg.nloadBalanceSteps == 0) && (s != 0) <;>
      cases cfg.useMPI && cfg.useGraphPartitioning <;>
        cases s % cfg.outputSteps == 0 <;>
          cases cfg.useVTK <;>
            cases cfg.usePartio <;>
              simp [isSchemeCall]
  · refine ⟨(if cfg.useMPI && cfg.useGraphPartitioning && (s % cfg.nloadBalanceSteps == 0) &&
        (s != 0) then [Event.mpiDomainDecompose false] else [])
        ++ [Event.injectParticles (s * cfg.dt), Event.schemeInitialise,
            Event.computeNodalKinematics 0,
            Event.updateNodalKinematicsNewmark 0 cfg.newmarkBeta cfg.newmarkGamma],
      [Event.computeParticleKinematics cfg.velocityUpdate 0 DampingName.cundall cfg.dampingFactor,
       Event.postcomputeStressStrain 0 cfg.pressureSmoothing, Event.locateParticles]
        ++ (if cfg.useMPI && cfg.useGraphPartitioning
              then [Event.transferHaloParticles, Event.mpiBarrier] else [])
        ++ (if s % cfg.outputSteps == 0 then
              [Event.writeHdf5 s cfg.nsteps]
                ++ (if cfg.useVTK then [Event.writeVtk s cfg.nsteps] else [])
                ++ (if cfg.usePartio then [Event.writePartio s cfg.nsteps] else [])
            else []), ?_⟩
    simp [stepTrace]

/-- The per-step call sequence exactly as claim C1 states it: particle
injection first, then the scheme calls through `locate_particles`, then
(periodically, in the builds that have one) the load balancer, then
(periodically) the output writers. -/
def claimC1Step (cfg : Config) (s : Nat) : List Event :=
  [Event.injectParticles (s * cfg.dt),
   Event.schemeInitialise,
   Event.computeNodalKinematics 0,
   Event.updateNodalKinematicsNewmark 0 cfg.newmarkBeta cfg.newmarkGamma,
   Event.computeForces cfg.gravity 0 s cfg.setNodeConcentratedForce,
   Event.updateNodalKinematicsNewmark 0 cfg.newmarkBeta cfg.newmarkGamma,
   Event.computeParticleKinematics cfg.velocityUpdate 0 DampingName.cundall cfg.dampingFactor,
   Event.postcomputeStressStrain 0 cfg.pressureSmoothing,
   Event.locateParticles]
    ++ (if cfg.useMPI = true ∧ cfg.useGraphPartitioning = true ∧
          s % cfg.nloadBalanceSteps = 0 ∧ s ≠ 0
          then [Event.mpiDomainDecompose false] else [])
    ++ (if s % cfg.outputSteps = 0 then
          [Event.writeHdf5 s cfg.nsteps]
            ++ (if cfg.useVTK = true then [Event.writeVtk s cfg.nsteps] else [])
            ++ (if cfg.usePartio = true then [Event.writePartio s cfg.nsteps] else [])
        else [])

/-- The per-step call sequence as the amended claim C1 states it: when the step
is a load-balancing step (a multiple of the configured interval, other than
step 0) of a graph-partitioned MPI build, the incremental re-decomposition runs
first; then particle injection, scheme initialise, nodal kinematics, Newmark
predictor, forces, Newmark corrector, particle kinematics, stress/strain
post-computation and particle relocation, in this fixed order; then, in
graph-partitioned MPI builds, the halo particle transfer and a barrier; and
last, when the step is an output step, the writers. -/
def claimC1AmendedStep (cfg : Config) (s : Nat) : List Event :=
  (if cfg.useMPI = true ∧ cfg.useGraphPartitioning = true ∧
      s % cfg.nloadBalanceSteps = 0 ∧ s ≠ 0
      then [Event.mpiDomainDecompose false] else [])
    ++ [Event.injectParticles (s * cfg.dt),
        Event.schemeInitialise,
        Event.computeNodalKinematics 0,
        Event.updateNodalKinematicsNewmark 0 cfg.newmarkBeta cfg.newmarkGamma,
        Event.computeForces cfg.gravity 0 s cfg.setNodeConcentratedForce,
        Event.updateNodalKinematicsNewmark 0 cfg.newmarkBeta cfg.newmarkGamma,
        Event.computeParticleKinematics cfg.velocityUpdate 0 DampingName.cundall cfg.dampingFactor,
        Event.postcomputeStressStrain 0 cfg.pressureSmoothing,
        Event.locateParticles]
    ++ (if cfg.useMPI = true ∧ cfg.useGraphPartitioning = true
          then [Event.transferHaloParticles, Event.mpiBarrier] else [])
    ++ (if s % cfg.outputSteps = 0 then
          [Event.writeHdf5 s cfg.nsteps]
            ++ (if cfg.useVTK = true then [Event.writeVtk s cfg.nsteps] else [])
            ++ (if cfg.usePartio = true then [Event.writePartio s cfg.nsteps] else [])
        else [])

/-- Counterexample to C1 as stated: in the graph-partitioned MPI configuration
`cfgMpiLB` (load-balance interval 1), the body of step 1 runs the load balancer
as its very first operation — before particle injection — whereas the claimed
order puts particle injection first and the load balancer after
`locate_particles`; the two sequences differ. -/
theorem step_order_counterexample :
    stepTrace cfgMpiLB 1 ≠ claimC1Step cfgMpiLB 1 ∧
    (stepTrace cfgMpiLB 1).head? = some (Event.mpiDomainDecompose false) ∧
    (claimC1Step cfgMpiLB 1).head? = some (Event.injectParticles 0) := by
  have h1 : (stepTrace cfgMpiLB 1).head? = some (Event.mpiDomainDecompose false) := by
    simp [stepTrace, cfgMpiLB, cfgFresh]
  have h2 : (claimC1Step cfgMpiLB 1).head? = some (Event.injectParticles 0) := by
    simp [claimC1Step, cfgMpiLB, cfgFresh]
  refine ⟨?_, h1, h2⟩
  intro h
  rw [h, h2] at h1
  simp at h1

/-- C1 (amended): every step body follows the amended fixed order — the
periodic load balancer first, then injection, scheme initialise, nodal
kinematics, Newmark predictor, forces, Newmark corrector, particle kinematics,
stress/strain, particle relocation, then the halo transfer of distributed
builds, then the periodic writes; in particular the predictor and the corrector
both run, adjacent around the force computation, so the corrector of a step
never precedes that step's predictor. -/
theorem step_order_amended (cfg : Config) (s : Nat) :
    stepTrace cfg s = claimC1AmendedStep cfg s ∧
    ∃ pre post, stepTrace cfg s =
      pre ++ [Event.updateNodalKinematicsNewmark 0 cfg.newmarkBeta cfg.newmarkGamma,
              Event.computeForces cfg.gravity 0 s cfg.setNodeConcentratedForce,
              Event.updateNodalKinematicsNewmark 0 cfg.newmarkBeta cfg.newmarkGamma] ++ post := by
  constructor
  · unfold stepTrace claimC1AmendedStep
    cases hm : cfg.useMPI <;> cases hg : cfg.useGraphPartitioning <;>
      by_cases h1 : s % cfg.nloadBalanceSteps = 0 <;> by_cases h2 : s = 0 <;>
        by_cases h3 : s % cfg.outputSteps = 0 <;> cases h4 : cfg.useVTK <;>
          cases h5 : cfg.usePartio <;>
            simp [hm, hg, h1, h2, h3, h4, h5]
  · refine ⟨(if cfg.useMPI && cfg.useGraphPartitioning && (s % cfg.nloadBalanceSteps == 0) &&
        (s != 0) then [Event.mpiDomainDecompose false] else [])
        ++ [Event.injectParticles (s * cfg.dt), Event.schemeInitialise,
            Event.computeNodalKinematics 0],
      [Event.computeParticleKinematics cfg.velocityUpdate 0 DampingName.cundall cfg.dampingFactor,
       Event.postcomputeStressStrain 0 cfg.pressureSmoothing, Event.locateParticles]
        ++ (if cfg.useMPI && cfg.useGraphPartitioning
              then [Event.transferHaloParticles, Event.mpiBarrier] else [])
        ++ (if s % cfg.outputSteps == 0 then
              [Event.writeHdf5 s cfg.nsteps]
                ++ (if cfg.useVTK then [Event.writeVtk s cfg.nsteps] else [])
                ++ (if cfg.usePartio then [Event.writePartio s cfg.nsteps] else [])
            else []), ?_⟩
    simp [stepTrace]

/-- Counterexample to C8 as stated: under the configuration `cfgOtherDamping`,
which names a damping model other than Cundall damping, step 0 still calls
`compute_particle_kinematics` with the literal damping name `"Cundall"`, and no
call with the configured damping name occurs: the damping model applied is not
the configured one. -/
theorem particle_kinematics_counterexample :
    cfgOtherDamping.dampingType ≠ DampingName.cundall ∧
    Event.computeParticleKinematics cfgOtherDamping.velocityUpdate 0
        cfgOtherDamping.dampingType cfgOtherDamping.dampingFactor
      ∉ stepTrace cfgOtherDamping 0 ∧
    Event.computeParticleKinematics cfgOtherDamping.velocityUpdate 0
        DampingName.cundall cfgOtherDamping.dampingFactor
      ∈ stepTrace cfgOtherDamping 0 := by
  refine ⟨by simp [cfgOtherDamping, cfgFresh], ?_, ?_⟩ <;>
    simp [stepTrace, cfgOtherDamping, cfgFresh]

/-- C8 (amended): every step body calls `compute_particle_kinematics` exactly
once, handing it the configured `velocity_update` mode (selecting between a
pure velocity update and an update-plus-position-integration mode), the fixed
literal damping name `"Cundall"` — regardless of the damping model the
configuration names — and the configured damping factor. -/
theorem particle_kinematics_call (cfg : Config) (s : Nat) :
    Event.computeParticleKinematics cfg.velocityUpdate 0 DampingName.cundall cfg.dampingFactor
      ∈ stepTrace cfg s ∧
    ∀ v p d q, Event.computeParticleKinematics v p d q ∈ stepTrace cfg s →
      v = cfg.velocityUpdate ∧ p = 0 ∧ d = DampingName.cundall ∧ q = cfg.dampingFactor := by
  constructor
  · unfold stepTrace
    cases cfg.useMPI && cfg.useGraphPartitioning && (s % cfg.nloadBalanceSteps == 0) &&
        (s != 0) <;>
      cases s % cfg.outputSteps == 0 <;>
        simp
  · intro v p d q
    unfold stepTrace
    cases cfg.useMPI && cfg.useGraphPartitioning && (s % cfg.nloadBalanceSteps == 0) &&
        (s != 0) <;>
      cases cfg.useMPI && cfg.useGraphPartitioning <;>
        cases s % cfg.outputSteps == 0 <;>
          cases cfg.useVTK <;>
            cases cfg.usePartio <;>
              (intro hmem; simp at hmem;
               obtain ⟨hv, hp, hd, hq⟩ := hmem;
               exact ⟨hv, hp, hd, hq⟩)

/-- Modelled from the spec: the output writers (`write_hdf5`, `write_vtk`,
`write_partio`, implemented outside this slice) are fire-and-forget side
effects — they consume the current Particle/Mesh state read-only and feed
nothing back into the simulation.  This predicate marks their invocations;
`runSim` below gives them no effect on the simulation state, while every other
operation may transform it. -/
def isWriteEvent : Event → Bool
  | Event.writeHdf5 _ _ => true
  | Event.writeVtk _ _ => true
  | Event.writePartio _ _ => true
  | _ => false

/-- Run a trace over an abstract simulation state: writer events leave the
state unchanged (see `isWriteEvent`), every other event acts through the
arbitrary transformer `f`. -/
def runSim {S : Type} (f : Event → S → S) (tr : List Event) (σ : S) : S :=
  tr.foldl (fun acc e => if isWriteEvent e then acc else f e acc) σ

/-- The same configuration with a different output interval. -/
def setOutputSteps (cfg : Config) (m : Nat) : Config :=
  { cfg with outputSteps := m }

/-- Running a trace over the simulation state only sees its non-writer
events. -/
theorem runSim_eq_filter {S : Type} (f : Event → S → S) (tr : List Event) (σ : S) :
    runSim f tr σ =
      (tr.filter (fun e => !(isWriteEvent e))).foldl (fun acc e => f e acc) σ := by
  induction tr generalizing σ with
  | nil => rfl
  | cons e tl ih =>
      cases h : isWriteEvent e <;>
        simp [runSim, List.filter_cons, h] <;>
          exact ih _

/-- Two pointwise filter-equal trace families stay filter-equal under
`flatMap`. -/
theorem filter_flatMap_eq {α β : Type} (l : List α) (g h : α → List β) (p : β → Bool)
    (hgh : ∀ a : α, (g a).filter p = (h a).filter p) :
    (l.flatMap g).filter p = (l.flatMap h).filter p := by
  induction l with
  | nil => rfl
  | cons a tl ih => simp only [List.flatMap_cons, List.filter_append, hgh a, ih]

/-- Changing only the output interval changes no non-writer event of a step
body. -/
theorem filter_stepTrace_outputSteps (cfg : Config) (m s : Nat) :
    (stepTrace (setOutputSteps cfg m) s).filter (fun e => !(isWriteEvent e))
      = (stepTrace cfg s).filter (fun e => !(isWriteEvent e)) := by
  unfold stepTrace setOutputSteps
  cases cfg.useMPI && cfg.useGraphPartitioning && (s % cfg.nloadBalanceSteps == 0) && (s != 0) <;>
    cases cfg.useMPI && cfg.useGraphPartitioning <;>
      cases s % m == 0 <;>
        cases s % cfg.outputSteps == 0 <;>
          cases cfg.useVTK <;>
            cases cfg.usePartio <;>
              simp [isWriteEvent, List.filter_append]

/-- Changing only the output interval changes no non-writer event of the whole
run. -/
theorem filter_solveTrace_outputSteps (cfg : Config) (m : Nat) :
    (solveTrace (setOutputSteps cfg m)).filter (fun e => !(isWriteEvent e))
      = (solveTrace cfg).filter (fun e => !(isWriteEvent e)) := by
  unfold solveTrace loopTrace
  rw [List.filter_append, List.filter_append]
  have hpre : preLoopTrace (setOutputSteps cfg m) = preLoopTrace cfg := rfl
  have hsteps : executedSteps (setOutputSteps cfg m) = executedSteps cfg := rfl
  rw [hpre, hsteps,
    filter_flatMap_eq (executedSteps cfg) (stepTrace (setOutputSteps cfg m)) (stepTrace cfg)
      (fun e => !(isWriteEvent e)) (fun s => filter_stepTrace_outputSteps cfg m s)]

/-- C7: the writer invocations of the body of step `s` are exactly — if and
only if `s` is a multiple of the output interval — the HDF5/checkpoint write
and, in `USE_VTK` / `USE_PARTIO` builds, the VTK and Partio writes, each handed
the current step index and the total step count; the pre-loop phase performs no
write; and no writer invocation modifies simulation state read by subsequent
steps: over any abstract simulation state and any per-event semantics in which
writes are read-only, the run's final simulation state is independent of the
output interval. -/
theorem output_schedule_and_frame (cfg : Config) :
    (∀ s : Nat, (stepTrace cfg s).filter isWriteEvent =
        if s % cfg.outputSteps = 0 then
          [Event.writeHdf5 s cfg.nsteps]
            ++ (if cfg.useVTK = true then [Event.writeVtk s cfg.nsteps] else [])
            ++ (if cfg.usePartio = true then [Event.writePartio s cfg.nsteps] else [])
        else []) ∧
    (∀ e ∈ preLoopTrace cfg, isWriteEvent e = false) ∧
    (∀ (S : Type) (f : Event → S → S) (σ : S) (m : Nat),
        runSim f (solve (setOutputSteps cfg m)).1 σ = runSim f (solve cfg).1 σ) := by
  refine ⟨?_, ?_, ?_⟩
  · intro s
    unfold stepTrace
    by_cases h3 : s % cfg.outputSteps = 0 <;>
      cases cfg.useMPI && cfg.useGraphPartitioning && (s % cfg.nloadBalanceSteps == 0) &&
          (s != 0) <;>
        cases cfg.useMPI && cfg.useGraphPartitioning <;>
          cases h4 : cfg.useVTK <;>
            cases h5 : cfg.usePartio <;>
              simp [isWriteEvent, List.filter_append, h3, h4, h5]
  · unfold preLoopTrace
    cases resumeRequested cfg <;>
      cases resumeEffective cfg <;>
        cases cfg.useMPI && cfg.useGraphPartitioning <;>
          simp [isWriteEvent]
  · intro S f σ m
    rw [runSim_eq_filter, runSim_eq_filter]
    show ((solveTrace (setOutputSteps cfg m)).filter _).foldl _ σ
      = ((solveTrace cfg).filter _).foldl _ σ
    rw [filter_solveTrace_outputSteps]

end MpmImplicitLinear
